import Mathlib

/-!
Verification of the powermon serial protocol codec and channel session
(`powermon.cpp`).

The 7-byte packet is modelled as a function `Fin 7 → ℕ`, each entry an
octet (`< 256` where it matters, stated as an explicit hypothesis).
`Response.Get` mirrors the C++ `Response::Get`: the `Ensure` calls become
nested conditionals producing `Except String ℚ`, carrying exactly the
exception messages of the source.  Values are computed in `ℚ`; the `float`
results the claims pin down (integers below `2 ^ 24` and multiples of a
tenth such as 230.5) are computed by the same formulas, so exact
arithmetic is the faithful reading of the decode table.  The device
session (`Device::Get`) is modelled over an explicit channel environment
recording the results of the `write`, `select` and `read` calls; the
`strerror(errno)` suffix appended to I/O failure messages is environment
dependent and omitted.
-/

namespace Powermon

/-- The five sensor kinds of the `Sensor` enum. -/
inductive Sensor where
  | VOLTAGE
  | CURRENT
  | POWER
  | ENERGY
  | TEST
deriving DecidableEq

/-- The numeric code of each enumerator (`VOLTAGE = 0`, …, `TEST = 4`). -/
def Sensor.code : Sensor → ℕ
  | .VOLTAGE => 0
  | .CURRENT => 1
  | .POWER => 2
  | .ENERGY => 3
  | .TEST => 4

/-- A packet body: `std::array<uint8_t, 7> Body`. -/
def Packet : Type := Fin 7 → ℕ

instance : DecidableEq Packet := inferInstanceAs (DecidableEq (Fin 7 → ℕ))

/-- All seven entries are octets. -/
def Packet.Wf (p : Packet) : Prop := ∀ i, p i < 256

instance (p : Packet) : Decidable p.Wf :=
  inferInstanceAs (Decidable (∀ i, p i < 256))

instance instDecEqExceptStringRat : DecidableEq (Except String ℚ) :=
  fun a b =>
    match a, b with
    | .ok x, .ok y => decidable_of_iff (x = y) (by simp)
    | .error x, .error y => decidable_of_iff (x = y) (by simp)
    | .ok _, .error _ => isFalse (by simp)
    | .error _, .ok _ => isFalse (by simp)

/-- A concrete packet from its seven byte values. -/
def mkPacket (a b c d e f g : ℕ) : Packet := fun i =>
  match i.val with
  | 0 => a
  | 1 => b
  | 2 => c
  | 3 => d
  | 4 => e
  | 5 => f
  | _ => g

/-- Model of `Packet::GetChecksum`: the low 8 bits of the sum of bytes 0 to 5. -/
def GetChecksum (p : Packet) : ℕ :=
  (p 0 + p 1 + p 2 + p 3 + p 4 + p 5) % 256

/-- The fixed address `DEFAULT_ADDR`, bytes 0xc0, 0xa8, 0x01, 0x01. -/
def DEFAULT_ADDR : Fin 4 → ℕ := ![0xc0, 0xa8, 0x01, 0x01]

/-- Model of `Request::Request(Sensor)`: body zero-initialised, byte 0 set to
`0xb0 | sens`, `DEFAULT_ADDR` copied into bytes 1 to 4, and byte 6 then
set to the checksum of the first six bytes. -/
def Request (sens : Sensor) : Packet :=
  let base : Packet :=
    mkPacket (Nat.lor 0xb0 sens.code) (DEFAULT_ADDR 0) (DEFAULT_ADDR 1)
      (DEFAULT_ADDR 2) (DEFAULT_ADDR 3) 0 0
  Function.update base 6 (GetChecksum base)

/-- Model of `Response::Get(Sensor)`: the chain of `Ensure` checks followed by the
per-sensor value, returning the thrown message on failure. -/
def Response.Get (p : Packet) (sens : Sensor) : Except String ℚ :=
  if p 0 = Nat.lor 0xa0 sens.code then
    if p 6 = GetChecksum p then
      match sens with
      | .VOLTAGE =>
        if p 4 = 0 then
          if p 5 = 0 then
            Except.ok (((256 * p 1 + p 2 : ℕ) : ℚ) + (p 3 : ℚ) / 10)
          else Except.error "VOLTAGE: Body[5]"
        else Except.error "VOLTAGE: Body[4]"
      | .CURRENT =>
        if p 4 = 0 then
          if p 5 = 0 then
            Except.ok (((256 * p 1 + p 2 : ℕ) : ℚ) + (p 3 : ℚ) / 100)
          else Except.error "CURRENT: Body[5]"
        else Except.error "CURRENT: Body[4]"
      | .POWER =>
        if p 3 = 0 then
          if p 4 = 0 then
            if p 5 = 0 then
              Except.ok ((256 * p 1 + p 2 : ℕ) : ℚ)
            else Except.error "POWER: Body[5]"
          else Except.error "POWER: Body[4]"
        else Except.error "POWER: Body[3]"
      | .ENERGY =>
        if p 4 = 0 then
          if p 5 = 0 then
            Except.ok ((65536 * p 1 + 256 * p 2 + p 3 : ℕ) : ℚ)
          else Except.error "ENERGY: Body[5]"
        else Except.error "ENERGY: Body[4]"
      | .TEST =>
        if p 1 = 0 then
          if p 2 = 0 then
            if p 3 = 0 then
              if p 4 = 0 then
                if p 5 = 0 then Except.ok 0
                else Except.error "TEST: Body[5]"
              else Except.error "TEST: Body[4]"
            else Except.error "TEST: Body[3]"
          else Except.error "TEST: Body[2]"
        else Except.error "TEST: Body[1]"
    else Except.error "Invalid checksum"
  else Except.error "Invalid response type"

/-- The value formula of the spec's decode table (§4.1), stated over exact
rationals. -/
def specTableValue (sens : Sensor) (p : Packet) : ℚ :=
  match sens with
  | .VOLTAGE => 256 * (p 1 : ℚ) + (p 2 : ℚ) + (p 3 : ℚ) / 10
  | .CURRENT => 256 * (p 1 : ℚ) + (p 2 : ℚ) + (p 3 : ℚ) / 100
  | .POWER => 256 * (p 1 : ℚ) + (p 2 : ℚ)
  | .ENERGY => 65536 * (p 1 : ℚ) + 256 * (p 2 : ℚ) + (p 3 : ℚ)
  | .TEST => 0

/-- The spec table's required-zero byte indices for each sensor. -/
def reqZero (sens : Sensor) : List (Fin 7) :=
  match sens with
  | .VOLTAGE => [4, 5]
  | .CURRENT => [4, 5]
  | .POWER => [3, 4, 5]
  | .ENERGY => [4, 5]
  | .TEST => [1, 2, 3, 4, 5]

/-- The enumerator name used in the `Ensure` messages. -/
def sensorName : Sensor → String
  | .VOLTAGE => "VOLTAGE"
  | .CURRENT => "CURRENT"
  | .POWER => "POWER"
  | .ENERGY => "ENERGY"
  | .TEST => "TEST"

/-- The malformed-field message for a sensor and a byte index. -/
def malformedMsg (sens : Sensor) (i : Fin 7) : String :=
  sensorName sens ++ ": Body[" ++ toString i.val ++ "]"

/-- The spec-level value formula applied to raw payload bytes. -/
def payloadValue (sens : Sensor) (b1 b2 b3 : ℕ) : ℚ :=
  match sens with
  | .VOLTAGE => 256 * (b1 : ℚ) + (b2 : ℚ) + (b3 : ℚ) / 10
  | .CURRENT => 256 * (b1 : ℚ) + (b2 : ℚ) + (b3 : ℚ) / 100
  | .POWER => 256 * (b1 : ℚ) + (b2 : ℚ)
  | .ENERGY => 65536 * (b1 : ℚ) + 256 * (b2 : ℚ) + (b3 : ℚ)
  | .TEST => 0

/-- The response frame of the round-trip property before its checksum is
recomputed: byte 0 keeps the sensor code of the given packet (low nibble)
but its direction bits are replaced by `0xa0`, and the payload bytes 1 to
5 are substituted. -/
def respBase (p : Packet) (b1 b2 b3 b4 b5 : ℕ) : Packet :=
  mkPacket (Nat.lor 0xa0 (Nat.land (p 0) 0xf)) b1 b2 b3 b4 b5 0

/-- Turn a request into a response frame as in the round-trip property:
flip the direction bits, substitute the payload and recompute the
checksum into byte 6. -/
def respondTo (p : Packet) (b1 b2 b3 b4 b5 : ℕ) : Packet :=
  Function.update (respBase p b1 b2 b3 b4 b5) 6
    (GetChecksum (respBase p b1 b2 b3 b4 b5))

/-- The outcome of the system calls one `Device::Get` exchange performs:
the return values of `write`, `select` (with `FD_ISSET` on the handle)
and `read`, and the 7 bytes the `read` would deliver. -/
structure Channel where
  writeResult : ℤ
  selectResult : ℤ
  fdIsSet : Bool
  readResult : ℤ
  readData : Packet

/-- Seconds field of the `timeval` handed to `select` in
`Device::WaitResponse` (`{1, 0}`). -/
def waitTimeoutSec : ℤ := 1

/-- Microseconds field of the `timeval` handed to `select` in
`Device::WaitResponse` (`{1, 0}`). -/
def waitTimeoutUsec : ℤ := 0

/-- Model of `Device::SendRequest`: the `write` must report all 7 bytes written. -/
def SendRequest (ch : Channel) (_sens : Sensor) : Except String Unit :=
  if ch.writeResult = 7 then Except.ok ()
  else Except.error "Failed to send request"

/-- Model of `Device::WaitResponse`: `select` bounded by the `timeval`
`{waitTimeoutSec, waitTimeoutUsec}` must report a positive count with the
handle readable. -/
def WaitResponse (ch : Channel) : Except String Unit :=
  if 0 < ch.selectResult ∧ ch.fdIsSet then Except.ok ()
  else Except.error "Timeout while reading"

/-- Model of `Device::ReadResponse`: the `read` must report all 7 bytes read, then
the response body is decoded. -/
def ReadResponse (ch : Channel) (sens : Sensor) : Except String ℚ :=
  if ch.readResult = 7 then Response.Get ch.readData sens
  else Except.error "Failed to read response"

/-- Model of `Device::Get`: send, wait, read and decode, propagating the first
failure. -/
def Device.Get (ch : Channel) (sens : Sensor) : Except String ℚ :=
  match SendRequest ch sens with
  | .error e => .error e
  | .ok _ =>
    match WaitResponse ch with
    | .error e => .error e
    | .ok _ => ReadResponse ch sens

/-- Replace the read-step outcome of a channel environment. -/
def setRead (ch : Channel) (rr : ℤ) (rd : Packet) : Channel :=
  ⟨ch.writeResult, ch.selectResult, ch.fdIsSet, rr, rd⟩

/-! ### Helper lemmas -/

/-- A response that passes the type, checksum and required-zero checks
decodes to the spec table's value. -/
lemma Get_ok_of_valid (p : Packet) (S : Sensor)
    (h0 : p 0 = Nat.lor 0xa0 S.code) (h6 : p 6 = GetChecksum p)
    (hz : ∀ j ∈ reqZero S, p j = 0) :
    Response.Get p S = Except.ok (specTableValue S p) := by
  cases S <;> simp [reqZero] at hz <;>
    simp [Response.Get, h0, h6, specTableValue, hz]

/-- The checksum ignores byte 6. -/
lemma GetChecksum_update6 (p : Packet) (v : ℕ) :
    GetChecksum (Function.update p 6 v) = GetChecksum p := by
  simp [GetChecksum, Function.update_apply]

/-- Decoding succeeded exactly when the value equals the table value. -/
lemma Get_ok_inv (p : Packet) (S : Sensor) (v : ℚ)
    (h : Response.Get p S = Except.ok v) : v = specTableValue S p := by
  cases S <;> simp only [Response.Get] at h <;> split_ifs at h <;>
    simp_all [specTableValue]

/-! ### Claim theorems -/

/-- C1.  A 7-byte response that passes the type-byte check, the checksum
check and the sensor's required-zero-byte checks decodes to exactly the
spec table's value (Voltage `256*B1 + B2 + B3/10`, Current
`256*B1 + B2 + B3/100`, Power `256*B1 + B2`, Energy
`65536*B1 + 256*B2 + B3`, Test `0`). -/
theorem decode_valid_eq_specTable (S : Sensor) (p : Packet) (wf : p.Wf)
    (h0 : p 0 = Nat.lor 0xa0 S.code) (h6 : p 6 = GetChecksum p)
    (hz : ∀ j ∈ reqZero S, p j = 0) :
    Response.Get p S = Except.ok (specTableValue S p) :=
  Get_ok_of_valid p S h0 h6 hz

/-- The Voltage scenario packet `[0xA0, 0x00, 0xE6, 0x05, 0x00, 0x00, cs]`. -/
def vPkt : Packet := mkPacket 0xa0 0x00 0xe6 0x05 0x00 0x00 0x8b

/-- The Energy scenario packet `[0xA3, 0x00, 0x01, 0x2C, 0x00, 0x00, cs]`. -/
def ePkt : Packet := mkPacket 0xa3 0x00 0x01 0x2c 0x00 0x00 0xd0

/-- C1 witness: the spec's Voltage scenario decodes to 230.5 and its
Energy scenario decodes to 300. -/
theorem decode_valid_eq_specTable_witness :
    Response.Get vPkt .VOLTAGE = Except.ok (461 / 2) ∧
    Response.Get ePkt .ENERGY = Except.ok 300 := by
  constructor
  · rw [decode_valid_eq_specTable .VOLTAGE vPkt (by decide) (by decide)
      (by decide) (by decide)]
    norm_num [specTableValue, vPkt, mkPacket]
  · rw [decode_valid_eq_specTable .ENERGY ePkt (by decide) (by decide)
      (by decide) (by decide)]
    norm_num [specTableValue, ePkt, mkPacket]

/-- C2.  `Request::Request(S)` produces exactly the bytes
`[0xB0 | code(S), 0xC0, 0xA8, 0x01, 0x01, 0x00, checksum]`, where byte 6
is the sum of bytes 0 to 5 modulo 256. -/
theorem request_layout (S : Sensor) :
    Request S 0 = Nat.lor 0xb0 S.code ∧ Request S 1 = 0xc0 ∧
    Request S 2 = 0xa8 ∧ Request S 3 = 0x01 ∧ Request S 4 = 0x01 ∧
    Request S 5 = 0 ∧
    Request S 6 =
      (Request S 0 + Request S 1 + Request S 2 + Request S 3 +
        Request S 4 + Request S 5) % 256 := by
  cases S <;> exact ⟨by decide, by decide, by decide, by decide, by decide,
    by decide, by decide⟩

/-- C4.  If byte 0 differs from `0xA0 | code(S)`, decoding fails with the
type error, whatever the rest of the packet holds (the type-byte check is
performed first). -/
theorem type_mismatch_fails_first (S : Sensor) (p : Packet)
    (h : p 0 ≠ Nat.lor 0xa0 S.code) :
    Response.Get p S = Except.error "Invalid response type" := by
  simp [Response.Get, h]

/-- C4 witness: a packet whose type byte is a request byte, with a wrong
checksum as well, still fails with the type error. -/
theorem type_mismatch_fails_first_witness :
    Response.Get (mkPacket 0xb0 0 0 0 0 0 0) .VOLTAGE =
      Except.error "Invalid response type" :=
  type_mismatch_fails_first .VOLTAGE (mkPacket 0xb0 0 0 0 0 0 0) (by decide)

/-- C6.  Decoding is total over the five sensor kinds: every 7-byte input
either yields a value or one of the typed failures (type error, checksum
error, or a malformed-field error naming a required-zero byte of the
sensor). -/
theorem decode_total_typed (S : Sensor) (p : Packet) :
    (∃ v, Response.Get p S = Except.ok v) ∨
    (∃ e, Response.Get p S = Except.error e ∧
      (e = "Invalid response type" ∨ e = "Invalid checksum" ∨
        ∃ j ∈ reqZero S, e = malformedMsg S j)) := by
  cases S <;> (simp only [Response.Get]; split_ifs) <;>
    first
      | exact Or.inl ⟨_, rfl⟩
      | exact Or.inr ⟨_, rfl, by decide⟩

/-- C9.  A request frame is never accepted as a response: for all sensors
`S` and `S'`, decoding `Request S'` with expected sensor `S` fails with
the type error, because `0xB0 | code` bytes and `0xA0 | code` bytes are
disjoint. -/
theorem request_never_decodes (S T : Sensor) :
    Response.Get (Request T) S = Except.error "Invalid response type" ∧
    Nat.lor 0xb0 T.code ≠ Nat.lor 0xa0 S.code := by
  cases S <;> cases T <;> exact ⟨by decide, by decide⟩

/-- A 7-byte array whose stored checksum byte (5) does not match the
checksum of its first six bytes (0xa0). -/
def badCkArr : Packet := mkPacket 0xa0 0 0 0 0 0 5

/-- C3 counterexample: the claim quantifies over all 7-byte arrays, but
starting from an array whose stored checksum is already wrong, mutating
byte 1 from 0 to 101 makes the stored checksum match, and decoding
succeeds instead of failing with a checksum mismatch. -/
theorem mutation_checksum_counterexample :
    badCkArr.Wf ∧ (101 : ℕ) < 256 ∧ (101 : ℕ) ≠ badCkArr 1 ∧
    Function.update badCkArr 1 101 6 = badCkArr 6 ∧
    Response.Get (Function.update badCkArr 1 101) .VOLTAGE =
      Except.ok 25856 := by
  refine ⟨by decide, by decide, by decide, by decide, ?_⟩
  rw [Get_ok_of_valid _ .VOLTAGE (by decide) (by decide) (by decide)]
  congr 1
  simp +decide [specTableValue, badCkArr, mkPacket, Function.update_apply]
  norm_num

/-- C3 (amended).  For a 7-byte array whose stored checksum is correct
and whose type byte matches the expected sensor, mutating any single byte
among bytes 1 to 5 without updating byte 6 makes decoding fail with the
checksum error, and mutating byte 0 makes it fail with the type error. -/
theorem mutation_fails_decode (S : Sensor) (p : Packet) (wf : p.Wf)
    (h0 : p 0 = Nat.lor 0xa0 S.code) (h6 : p 6 = GetChecksum p)
    (i : Fin 7) (hi : i.val ≤ 5) (v : ℕ) (hv : v < 256) (hne : v ≠ p i) :
    Response.Get (Function.update p i v) S =
      Except.error
        (if i.val = 0 then "Invalid response type" else "Invalid checksum") := by
  fin_cases i
  · have hvne : ¬ v = Nat.lor 0xa0 S.code := h0 ▸ hne
    simp +decide [Response.Get, Function.update_apply, hvne]
  · have hp := wf 1
    have hne1 : v ≠ p 1 := hne
    have hck : ¬ p 6 = GetChecksum (Function.update p 1 v) := by
      rw [h6]
      simp +decide [GetChecksum, Function.update_apply]
      omega
    simp +decide [Response.Get, Function.update_apply, h0, hck]
  · have hp := wf 2
    have hne2 : v ≠ p 2 := hne
    have hck : ¬ p 6 = GetChecksum (Function.update p 2 v) := by
      rw [h6]
      simp +decide [GetChecksum, Function.update_apply]
      omega
    simp +decide [Response.Get, Function.update_apply, h0, hck]
  · have hp := wf 3
    have hne3 : v ≠ p 3 := hne
    have hck : ¬ p 6 = GetChecksum (Function.update p 3 v) := by
      rw [h6]
      simp +decide [GetChecksum, Function.update_apply]
      omega
    simp +decide [Response.Get, Function.update_apply, h0, hck]
  · have hp := wf 4
    have hne4 : v ≠ p 4 := hne
    have hck : ¬ p 6 = GetChecksum (Function.update p 4 v) := by
      rw [h6]
      simp +decide [GetChecksum, Function.update_apply]
      omega
    simp +decide [Response.Get, Function.update_apply, h0, hck]
  · have hp := wf 5
    have hne5 : v ≠ p 5 := hne
    have hck : ¬ p 6 = GetChecksum (Function.update p 5 v) := by
      rw [h6]
      simp +decide [GetChecksum, Function.update_apply]
      omega
    simp +decide [Response.Get, Function.update_apply, h0, hck]
  · exact absurd hi (by decide)

/-- C3 witness: mutating byte 2 of a valid Voltage response from 230 to 0
makes decoding fail with the checksum error. -/
theorem mutation_fails_decode_witness :
    Response.Get (Function.update vPkt 2 0) .VOLTAGE =
      Except.error "Invalid checksum" := by
  have h := mutation_fails_decode .VOLTAGE vPkt (by decide) (by decide)
    (by decide) 2 (by decide) 0 (by decide) (by decide)
  rw [if_neg (by decide)] at h
  exact h

/-- C5.  A response with correct type byte and checksum but some nonzero
required-zero byte fails with the malformed-field message naming such a
byte and the sensor. -/
theorem nonzero_required_field_fails (S : Sensor) (p : Packet) (wf : p.Wf)
    (h0 : p 0 = Nat.lor 0xa0 S.code) (h6 : p 6 = GetChecksum p)
    (hnz : ∃ j ∈ reqZero S, p j ≠ 0) :
    ∃ j ∈ reqZero S, p j ≠ 0 ∧
      Response.Get p S = Except.error (malformedMsg S j) := by
  cases S
  case VOLTAGE =>
    by_cases h4 : p 4 = 0
    · have h5 : p 5 ≠ 0 := by
        rcases hnz with ⟨j, hj, hjne⟩
        simp [reqZero] at hj
        rcases hj with rfl | rfl
        · exact absurd h4 hjne
        · exact hjne
      refine ⟨5, by decide, h5, ?_⟩
      rw [show malformedMsg Sensor.VOLTAGE 5 = "VOLTAGE: Body[5]" by decide]
      simp [Response.Get, h0, h6, h4, h5]
    · refine ⟨4, by decide, h4, ?_⟩
      rw [show malformedMsg Sensor.VOLTAGE 4 = "VOLTAGE: Body[4]" by decide]
      simp [Response.Get, h0, h6, h4]
  case CURRENT =>
    by_cases h4 : p 4 = 0
    · have h5 : p 5 ≠ 0 := by
        rcases hnz with ⟨j, hj, hjne⟩
        simp [reqZero] at hj
        rcases hj with rfl | rfl
        · exact absurd h4 hjne
        · exact hjne
      refine ⟨5, by decide, h5, ?_⟩
      rw [show malformedMsg Sensor.CURRENT 5 = "CURRENT: Body[5]" by decide]
      simp [Response.Get, h0, h6, h4, h5]
    · refine ⟨4, by decide, h4, ?_⟩
      rw [show malformedMsg Sensor.CURRENT 4 = "CURRENT: Body[4]" by decide]
      simp [Response.Get, h0, h6, h4]
  case POWER =>
    by_cases h3 : p 3 = 0
    · by_cases h4 : p 4 = 0
      · have h5 : p 5 ≠ 0 := by
          rcases hnz with ⟨j, hj, hjne⟩
          simp [reqZero] at hj
          rcases hj with rfl | rfl | rfl
          · exact absurd h3 hjne
          · exact absurd h4 hjne
          · exact hjne
        refine ⟨5, by decide, h5, ?_⟩
        rw [show malformedMsg Sensor.POWER 5 = "POWER: Body[5]" by decide]
        simp [Response.Get, h0, h6, h3, h4, h5]
      · refine ⟨4, by decide, h4, ?_⟩
        rw [show malformedMsg Sensor.POWER 4 = "POWER: Body[4]" by decide]
        simp [Response.Get, h0, h6, h3, h4]
    · refine ⟨3, by decide, h3, ?_⟩
      rw [show malformedMsg Sensor.POWER 3 = "POWER: Body[3]" by decide]
      simp [Response.Get, h0, h6, h3]
  case ENERGY =>
    by_cases h4 : p 4 = 0
    · have h5 : p 5 ≠ 0 := by
        rcases hnz with ⟨j, hj, hjne⟩
        simp [reqZero] at hj
        rcases hj with rfl | rfl
        · exact absurd h4 hjne
        · exact hjne
      refine ⟨5, by decide, h5, ?_⟩
      rw [show malformedMsg Sensor.ENERGY 5 = "ENERGY: Body[5]" by decide]
      simp [Response.Get, h0, h6, h4, h5]
    · refine ⟨4, by decide, h4, ?_⟩
      rw [show malformedMsg Sensor.ENERGY 4 = "ENERGY: Body[4]" by decide]
      simp [Response.Get, h0, h6, h4]
  case TEST =>
    by_cases h1 : p 1 = 0
    · by_cases h2 : p 2 = 0
      · by_cases h3 : p 3 = 0
        · by_cases h4 : p 4 = 0
          · have h5 : p 5 ≠ 0 := by
              rcases hnz with ⟨j, hj, hjne⟩
              simp [reqZero] at hj
              rcases hj with rfl | rfl | rfl | rfl | rfl
              · exact absurd h1 hjne
              · exact absurd h2 hjne
              · exact absurd h3 hjne
              · exact absurd h4 hjne
              · exact hjne
            refine ⟨5, by decide, h5, ?_⟩
            rw [show malformedMsg Sensor.TEST 5 = "TEST: Body[5]" by decide]
            simp [Response.Get, h0, h6, h1, h2, h3, h4, h5]
          · refine ⟨4, by decide, h4, ?_⟩
            rw [show malformedMsg Sensor.TEST 4 = "TEST: Body[4]" by decide]
            simp [Response.Get, h0, h6, h1, h2, h3, h4]
        · refine ⟨3, by decide, h3, ?_⟩
          rw [show malformedMsg Sensor.TEST 3 = "TEST: Body[3]" by decide]
          simp [Response.Get, h0, h6, h1, h2, h3]
      · refine ⟨2, by decide, h2, ?_⟩
        rw [show malformedMsg Sensor.TEST 2 = "TEST: Body[2]" by decide]
        simp [Response.Get, h0, h6, h1, h2]
    · refine ⟨1, by decide, h1, ?_⟩
      rw [show malformedMsg Sensor.TEST 1 = "TEST: Body[1]" by decide]
      simp [Response.Get, h0, h6, h1]

/-- A Power response with `B3 = 1` and otherwise valid checksum and type
byte. -/
def pB3Pkt : Packet := mkPacket 0xa2 0 0 1 0 0 0xa3

/-- C5 witness: the Power packet with `B3 = 1` fails with the
malformed-field message naming byte 3 and the POWER sensor. -/
theorem nonzero_required_field_fails_witness :
    (∃ j ∈ reqZero .POWER, pB3Pkt j ≠ 0 ∧
      Response.Get pB3Pkt .POWER = Except.error (malformedMsg .POWER j)) ∧
    Response.Get pB3Pkt .POWER = Except.error "POWER: Body[3]" :=
  ⟨nonzero_required_field_fails .POWER pB3Pkt (by decide) (by decide)
    (by decide) ⟨3, by decide, by decide⟩, by decide⟩

/-- C7.  Round trip: flip the direction bits of `Request S` to `0xA0`
keeping the sensor code, install any payload satisfying the sensor's
required-zero constraints, recompute the checksum; decoding the result
with expected sensor `S` succeeds with exactly the formula value of the
payload. -/
theorem roundtrip_decode (S : Sensor) (b1 b2 b3 b4 b5 : ℕ)
    (hz : ∀ j ∈ reqZero S, respondTo (Request S) b1 b2 b3 b4 b5 j = 0) :
    Response.Get (respondTo (Request S) b1 b2 b3 b4 b5) S =
      Except.ok (payloadValue S b1 b2 b3) := by
  have h0 : respondTo (Request S) b1 b2 b3 b4 b5 0 = Nat.lor 0xa0 S.code := by
    have hb : respondTo (Request S) b1 b2 b3 b4 b5 0 =
        Nat.lor 0xa0 (Nat.land (Request S 0) 0xf) := by
      simp +decide [respondTo, respBase, mkPacket, Function.update_apply]
    rw [hb]
    cases S <;> decide
  have h6 : respondTo (Request S) b1 b2 b3 b4 b5 6 =
      GetChecksum (respondTo (Request S) b1 b2 b3 b4 b5) := by
    simp [respondTo, GetChecksum_update6, Function.update_same]
  rw [Get_ok_of_valid _ S h0 h6 hz]
  cases S <;>
    simp +decide [specTableValue, payloadValue, respondTo, respBase,
      mkPacket, Function.update_apply]

/-- C7 witness: round-tripping the Voltage request with payload
`(0, 230, 5, 0, 0)` decodes to 230.5. -/
theorem roundtrip_decode_witness :
    Response.Get (respondTo (Request .VOLTAGE) 0 230 5 0 0) .VOLTAGE =
      Except.ok (461 / 2) := by
  rw [roundtrip_decode .VOLTAGE 0 230 5 0 0 (by decide)]
  norm_num [payloadValue]

/-- C8.  Once the request is written, a zero or negative `select` result
makes `Device::Get` fail with the timeout error; the outcome does not
depend on the read step, and the wait is bounded by the `timeval`
`{1, 0}`, one second. -/
theorem timeout_skips_read (ch : Channel) (S : Sensor)
    (hw : ch.writeResult = 7) (hs : ch.selectResult ≤ 0) :
    Device.Get ch S = Except.error "Timeout while reading" ∧
    (∀ rr rd, Device.Get (setRead ch rr rd) S =
      Except.error "Timeout while reading") ∧
    waitTimeoutSec = 1 ∧ waitTimeoutUsec = 0 := by
  have hsel : ¬ (0 < ch.selectResult ∧ ch.fdIsSet) := by
    rintro ⟨h, _⟩
    omega
  refine ⟨?_, fun rr rd => ?_, rfl, rfl⟩
  · simp [Device.Get, SendRequest, WaitResponse, hw, hsel]
  · simp [Device.Get, SendRequest, WaitResponse, setRead, hw, hsel]

/-- C8 witness: on a channel whose `select` returned 0, the exchange reports the timeout even though 7 readable bytes of a
valid response were available. -/
theorem timeout_skips_read_witness :
    Device.Get ⟨7, 0, false, 7, vPkt⟩ .VOLTAGE =
      Except.error "Timeout while reading" :=
  (timeout_skips_read ⟨7, 0, false, 7, vPkt⟩ .VOLTAGE (by decide)
    (by decide)).1

/-- A valid Power response packet reading 300 watts. -/
def pwPkt : Packet := mkPacket 0xa2 1 44 0 0 0 0xcf

/-- C10.  A successful decode is non-negative, and the Power and Energy
values are integers computed without division, bounded by 65535 and
16777215 respectively, both below `2 ^ 24`. -/
theorem decode_values_nonneg_bounded (S : Sensor) (p : Packet) (wf : p.Wf)
    (v : ℚ) (h : Response.Get p S = Except.ok v) :
    0 ≤ v ∧
    (S = .POWER →
      ∃ n : ℕ, v = n ∧ n = 256 * p 1 + p 2 ∧ n ≤ 65535 ∧ n < 2 ^ 24) ∧
    (S = .ENERGY →
      ∃ n : ℕ, v = n ∧ n = 65536 * p 1 + 256 * p 2 + p 3 ∧
        n ≤ 16777215 ∧ n < 2 ^ 24) := by
  have hv := Get_ok_inv p S v h
  subst hv
  have b1 := wf 1
  have b2 := wf 2
  have b3 := wf 3
  refine ⟨?_, ?_, ?_⟩
  · cases S <;> simp [specTableValue] <;> positivity
  · rintro rfl
    refine ⟨256 * p 1 + p 2, ?_, rfl, by omega, by omega⟩
    push_cast [specTableValue]
    ring
  · rintro rfl
    refine ⟨65536 * p 1 + 256 * p 2 + p 3, ?_, rfl, by omega, by omega⟩
    push_cast [specTableValue]
    ring

/-- C10 witness: the Power response reading 300 instantiates the bound
(300 is the integer `256 * 1 + 44`, at most 65535 and below `2 ^ 24`). -/
theorem decode_values_nonneg_bounded_witness :
    0 ≤ (300 : ℚ) ∧
    (∃ n : ℕ, (300 : ℚ) = n ∧ n = 256 * pwPkt 1 + pwPkt 2 ∧
      n ≤ 65535 ∧ n < 2 ^ 24) := by
  have hok : Response.Get pwPkt .POWER = Except.ok 300 := by
    rw [Get_ok_of_valid pwPkt .POWER (by decide) (by decide) (by decide)]
    norm_num [specTableValue, pwPkt, mkPacket]
  have h := decode_values_nonneg_bounded .POWER pwPkt (by decide) 300 hok
  exact ⟨h.1, h.2.1 rfl⟩

end Powermon
